import Mathlib

/-!
# Verification of the stock-data time-series core (`src/server.js`)

This file shallowly embeds the two core components of the server:

* the **Window Selector** (`getTimeFrameDate`, `filterByTimeFrame`), and
* the **Statistics Engine** (`calculateStatistics`),

and proves or refutes the frozen claims about them.

Modelling conventions:

* A JavaScript `Date` is modelled at calendar-day granularity as the
  integer number of civil days since the Unix epoch 1970-01-01 (the
  records' `date` fields carry no time component, and a single time zone
  is assumed).  `7 * 24 * 60 * 60 * 1000` milliseconds is exactly 7 days.
* The civil-calendar conversions (`daysFromCivil`, `civilFromDays`) are
  the standard proleptic-Gregorian algorithms; `jsMakeDay y m d` models
  the JavaScript constructor `new Date(y, m, d)` with its 0-based month
  field and its normalisation of out-of-range month/day arguments
  (months roll into years, day overflow rolls into following months).
* `Array.prototype.sort` sorts in place with a stable sort; the pure
  result of a call is modelled by `filterByTimeFrame`, and the contents
  of the *input* array after the call by `filterByTimeFrameEffect`.
* JavaScript numbers are idealised as exact arithmetic: the input values
  are rationals, `Math.sqrt` is the real square root, and
  `Math.round(x)` is `⌊x + 1/2⌋`.
-/

/-! ## Civil calendar arithmetic (model of the JavaScript `Date` class) -/

/-- Day number (days since 1970-01-01) of the civil date `(y, m, d)`,
with month `m` 1-based; the day `d` may be out of range, in which case
the result simply continues past the end of the month (the count is
affine in `d`).  Standard proleptic-Gregorian algorithm. -/
def daysFromCivil (y m d : Int) : Int :=
  let y2 : Int := if m ≤ 2 then y - 1 else y
  let era : Int := y2 / 400
  let yoe : Int := y2 - era * 400
  let doy : Int := (153 * (if 2 < m then m - 3 else m + 9) + 2) / 5 + d - 1
  let doe : Int := yoe * 365 + yoe / 4 - yoe / 100 + doy
  era * 146097 + doe - 719468

/-- Civil date `(year, month, day)` (month 1-based) of a day number;
inverse of `daysFromCivil` on valid dates. -/
def civilFromDays (z0 : Int) : Int × Int × Int :=
  let z : Int := z0 + 719468
  let era : Int := z / 146097
  let doe : Int := z - era * 146097
  let yoe : Int := (doe - doe / 1460 + doe / 36524 - doe / 146096) / 365
  let y : Int := yoe + era * 400
  let doy : Int := doe - (365 * yoe + yoe / 4 - yoe / 100)
  let mp : Int := (5 * doy + 2) / 153
  let d : Int := doy - (153 * mp + 2) / 5 + 1
  let m : Int := if mp < 10 then mp + 3 else mp - 9
  (if m ≤ 2 then y + 1 else y, m, d)

/-- Model of `new Date(y, m, d)` (JavaScript: `m` is the 0-based month
field and may be any integer; excess months roll into the year, and an
out-of-range day-of-month rolls past the end of the month).  Returns the
epoch-day number of the resulting instant. -/
def jsMakeDay (y m d : Int) : Int :=
  let ym : Int := y * 12 + m
  let yy : Int := ym.fdiv 12
  let mm : Int := ym.fmod 12
  daysFromCivil yy (mm + 1) 1 + (d - 1)

/-- `Date.prototype.getFullYear` on an epoch-day timestamp. -/
def getFullYear (t : Int) : Int := (civilFromDays t).1

/-- `Date.prototype.getMonth` (0-based month field). -/
def getMonth (t : Int) : Int := (civilFromDays t).2.1 - 1

/-- `Date.prototype.getDate` (day of month). -/
def getDate (t : Int) : Int := (civilFromDays t).2.2

/-- Number of days of month `m` (1-based) of year `y` in the Gregorian
calendar; used to state which `(y, m, d)` triples are valid dates. -/
def daysInMonth (y m : Int) : Int :=
  if m = 2 then (if (y % 4 = 0 ∧ y % 100 ≠ 0) ∨ y % 400 = 0 then 29 else 28)
  else if m = 4 ∨ m = 6 ∨ m = 9 ∨ m = 11 then 30
  else 31

/-! ## The Window Selector (`getTimeFrameDate`, `filterByTimeFrame`) -/

/-- `String.prototype.toUpperCase`, stated structurally (uppercase each
character); agrees with the usual library `toUpper` on the ASCII tokens
involved here. -/
def jsToUpper (s : String) : String := ⟨s.data.map Char.toUpper⟩

/-- A dated record of a company series: its `date` field (as parsed by
`new Date(item.date)`, at day granularity) plus the numeric payload the
other fields (`pe`, `pb`, `ps`, `close`, `mcap`, …) carry.  The selector
only ever reads `date`. -/
structure DatedRecord where
  date : Int
  value : ℚ
deriving DecidableEq, Repr

/-- The comparator `(a, b) => new Date(a.date) - new Date(b.date)`
sorts ascending by the `date` field. -/
def byDate (a b : DatedRecord) : Prop := a.date ≤ b.date

instance : DecidableRel byDate := fun a b => inferInstanceAs (Decidable (a.date ≤ b.date))

instance : IsTotal DatedRecord byDate := ⟨fun a b => Int.le_total a.date b.date⟩

instance : IsTrans DatedRecord byDate := ⟨fun _ _ _ h h2 => Int.le_trans h h2⟩

/-- `data.sort((a, b) => new Date(a.date) - new Date(b.date))`: a stable
sort ascending by date. -/
def sortByDate (l : List DatedRecord) : List DatedRecord := l.insertionSort byDate

/-- `getTimeFrameDate(timeFrame)` from `src/server.js`, with the ambient
`new Date()` made explicit as the epoch-day argument `now`.  The source
returns a thunk (or `null`); since `now` is fixed, the thunk is modelled
by the resolved instant itself.  `timeFrame?.toUpperCase()` is the
`Option.map jsToUpper`. -/
def getTimeFrameDate (timeFrame : Option String) (now : Int) : Option Int :=
  match timeFrame.map jsToUpper with
  | some "1W" => some (now - 7)
  | some "1M" => some (jsMakeDay (getFullYear now) (getMonth now - 1) (getDate now))
  | some "3M" => some (jsMakeDay (getFullYear now) (getMonth now - 3) (getDate now))
  | some "6M" => some (jsMakeDay (getFullYear now) (getMonth now - 6) (getDate now))
  | some "1Y" => some (jsMakeDay (getFullYear now - 1) (getMonth now) (getDate now))
  | some "2Y" => some (jsMakeDay (getFullYear now - 2) (getMonth now) (getDate now))
  | some "ALL" => some (daysFromCivil 1900 1 1)
  | _ => none

/-- The guard `!timeFrame || timeFrame.toUpperCase() === "ALL"`:
`timeFrame` is absent or falsy (empty string) or the token `ALL` in any
case. -/
def isAllLike (timeFrame : Option String) : Bool :=
  match timeFrame with
  | none => true
  | some s => s = "" || jsToUpper s = "ALL"

/-- `filterByTimeFrame(data, timeFrame)` from `src/server.js` (with
`now` explicit): the list returned by the call. -/
def filterByTimeFrame (data : List DatedRecord) (timeFrame : Option String)
    (now : Int) : List DatedRecord :=
  if isAllLike timeFrame then sortByDate data
  else
    match getTimeFrameDate timeFrame now with
    | none => data
    | some startDate =>
        sortByDate (data.filter (fun item => startDate ≤ item.date))

/-- The contents of the *input* array `data` after
`filterByTimeFrame(data, timeFrame)` returns: the `ALL`/absent branch
runs `data.sort(...)`, which sorts the array **in place**; the other
branches leave `data` untouched (`filter` allocates a fresh array, and
only that fresh array is sorted). -/
def filterByTimeFrameEffect (data : List DatedRecord) (timeFrame : Option String)
    (now : Int) : List DatedRecord :=
  if isAllLike timeFrame then sortByDate data else data

/-! ## The Statistics Engine (`calculateStatistics`)

The local `const` bindings of `calculateStatistics` are lifted to
top-level definitions, one per binding, in source order. -/

/-- `const sorted = [...values].sort((a, b) => a - b)`. -/
def sortedValues (values : List ℚ) : List ℚ := values.insertionSort (· ≤ ·)

/-- `const mean = values.reduce((sum, val) => sum + val, 0) / values.length`. -/
def listMean (values : List ℚ) : ℚ := values.sum / values.length

/-- `const median = sorted.length % 2 === 0 ? (sorted[l/2 - 1] + sorted[l/2]) / 2
: sorted[Math.floor(l/2)]` (out-of-range reads, which never happen on a
non-empty input, default to 0). -/
def listMedian (values : List ℚ) : ℚ :=
  let sorted := sortedValues values
  if sorted.length % 2 = 0 then
    (sorted.getD (sorted.length / 2 - 1) 0 + sorted.getD (sorted.length / 2) 0) / 2
  else
    sorted.getD (sorted.length / 2) 0

/-- `const variance = values.reduce((sum, val) => sum + Math.pow(val - mean, 2), 0)
/ values.length`. -/
def listVariance (values : List ℚ) : ℚ :=
  (values.map (fun val => (val - listMean values) ^ 2)).sum / values.length

/-- `const std_dev = Math.sqrt(variance)`. -/
noncomputable def listStdDev (values : List ℚ) : ℝ :=
  Real.sqrt (listVariance values)

/-- `const lastValue = values[values.length - 1]`. -/
def lastValueOf (values : List ℚ) : ℚ := values.getD (values.length - 1) 0

/-- `const percentile = (sorted.filter(val => val <= lastValue).length
/ sorted.length) * 100`. -/
def listPercentile (values : List ℚ) : ℚ :=
  let sorted := sortedValues values
  (((sorted.filter (fun val => val ≤ lastValueOf values)).length : ℚ)
    / (sorted.length : ℚ)) * 100

/-- `const min = Math.min(...values)` (minimum of a non-empty argument
list; folded starting from the first value). -/
def listMin (values : List ℚ) : ℚ := values.foldr min (values.getD 0 0)

/-- `const max = Math.max(...values)`. -/
def listMax (values : List ℚ) : ℚ := values.foldr max (values.getD 0 0)

/-- `Math.round(x)`: round to nearest integer, half toward `+∞`. -/
noncomputable def jsRound (x : ℝ) : ℝ := (⌊x + 1 / 2⌋ : ℤ)

/-- `Math.round(x * 100) / 100`: the 2-decimal rounding applied to every
field of the statistics object. -/
noncomputable def round2 (x : ℝ) : ℝ := jsRound (x * 100) / 100

/-- The fixed-shape statistics object returned by `calculateStatistics`. -/
structure Statistics where
  mean : ℝ
  median : ℝ
  std_dev : ℝ
  min : ℝ
  max : ℝ
  plus_one_dev : ℝ
  minus_one_dev : ℝ
  plus_two_dev : ℝ
  minus_two_dev : ℝ
  percentile : ℝ
  count : ℕ

/-- The record literal returned by `calculateStatistics` on a non-empty
input. -/
noncomputable def statisticsOf (values : List ℚ) : Statistics where
  mean := round2 (listMean values)
  median := round2 (listMedian values)
  std_dev := round2 (listStdDev values)
  min := round2 (listMin values)
  max := round2 (listMax values)
  plus_one_dev := round2 ((listMean values : ℝ) + listStdDev values)
  minus_one_dev := round2 ((listMean values : ℝ) - listStdDev values)
  plus_two_dev := round2 ((listMean values : ℝ) + 2 * listStdDev values)
  minus_two_dev := round2 ((listMean values : ℝ) - 2 * listStdDev values)
  percentile := round2 (listPercentile values)
  count := values.length

/-- `calculateStatistics(values)` from `src/server.js`:
`if (values.length === 0) return null;` then the statistics record. -/
noncomputable def calculateStatistics (values : List ℚ) : Option Statistics :=
  if values.length = 0 then none else some (statisticsOf values)


/-! ## Basic lemmas -/

theorem sortedValues_perm (values : List ℚ) : List.Perm (sortedValues values) values :=
  List.perm_insertionSort _ _

theorem sortedValues_sorted (values : List ℚ) : (sortedValues values).Sorted (· ≤ ·) :=
  List.sorted_insertionSort _ _

theorem length_sortedValues (values : List ℚ) :
    (sortedValues values).length = values.length :=
  (sortedValues_perm values).length_eq

theorem sortByDate_perm (l : List DatedRecord) : List.Perm (sortByDate l) l :=
  List.perm_insertionSort _ _

theorem sortByDate_sorted (l : List DatedRecord) : (sortByDate l).Sorted byDate :=
  List.sorted_insertionSort _ _

theorem calculateStatistics_eq_some {values : List ℚ} (h : values ≠ []) :
    calculateStatistics values = some (statisticsOf values) := by
  simp [calculateStatistics, List.length_eq_zero, h]

theorem round2_mul_hundred (x : ℝ) : round2 x * 100 = ((⌊x * 100 + 1 / 2⌋ : ℤ) : ℝ) := by
  rw [round2, jsRound]
  field_simp

theorem round2_eq_of_bounds (x : ℝ) (n : ℤ) (h1 : (n : ℝ) ≤ x * 100 + 1 / 2)
    (h2 : x * 100 + 1 / 2 < n + 1) : round2 x = (n : ℝ) / 100 := by
  have hf : ⌊x * 100 + 1 / 2⌋ = n := Int.floor_eq_iff.mpr ⟨h1, by exact_mod_cast h2⟩
  rw [round2, jsRound, hf]

theorem round2_ratCast_eq (q : ℚ) (n : ℤ) (h1 : (n : ℚ) ≤ q * 100 + 1 / 2)
    (h2 : q * 100 + 1 / 2 < n + 1) : round2 (q : ℝ) = (n : ℝ) / 100 := by
  apply round2_eq_of_bounds
  · have h : ((n : ℚ) : ℝ) ≤ ((q * 100 + 1 / 2 : ℚ) : ℝ) := by exact_mod_cast h1
    push_cast at h ⊢
    linarith
  · have h : ((q * 100 + 1 / 2 : ℚ) : ℝ) < (((n : ℚ) + 1 : ℚ) : ℝ) := by exact_mod_cast h2
    push_cast at h ⊢
    linarith

/-- The `lastValue` binding reads the final element of the input in its
original order. -/
theorem lastValueOf_eq_getLast (values : List ℚ) (h : values ≠ []) :
    lastValueOf values = values.getLast h := by
  have hpos : 0 < values.length := List.length_pos.mpr h
  rw [lastValueOf, List.getD_eq_getElem?_getD, List.getElem?_eq_getElem (by omega),
    Option.getD_some, List.getLast_eq_getElem]

/-- The percentile numerator may equivalently be counted over the
original (unsorted) sequence, since sorting permutes it. -/
theorem listPercentile_eq_countP (values : List ℚ) (h : values ≠ []) :
    listPercentile values =
      ((values.countP (fun v => v ≤ values.getLast h) : ℚ) / (values.length : ℚ)) * 100 := by
  rw [listPercentile, lastValueOf_eq_getLast values h, ← List.countP_eq_length_filter,
    List.Perm.countP_eq _ (sortedValues_perm values), length_sortedValues]

/-! ## Claims about the Statistics Engine -/

/-- C7: the Statistics Engine returns `null` on the empty sequence, and
on every non-empty sequence it returns a record; all divisors appearing
in the computation of `mean`, `median`, `std_dev` and `percentile`
(`values.length`, `sorted.length`, and the constant 2) are then
non-zero, so no division by zero occurs. -/
theorem calculateStatistics_empty_null :
    calculateStatistics ([] : List ℚ) = none ∧
    ∀ values : List ℚ, values ≠ [] →
      calculateStatistics values = some (statisticsOf values) ∧
      (values.length : ℚ) ≠ 0 ∧ ((sortedValues values).length : ℚ) ≠ 0 := by
  refine ⟨rfl, fun values h => ⟨calculateStatistics_eq_some h, ?_, ?_⟩⟩
  · have hpos : 0 < values.length := List.length_pos.mpr h
    exact_mod_cast Nat.pos_iff_ne_zero.mp hpos
  · rw [length_sortedValues]
    have hpos : 0 < values.length := List.length_pos.mpr h
    exact_mod_cast Nat.pos_iff_ne_zero.mp hpos

theorem calculateStatistics_empty_null_witness :
    calculateStatistics [(1 : ℚ)] = some (statisticsOf [(1 : ℚ)]) ∧
    (([(1 : ℚ)].length : ℚ) ≠ 0) ∧ (((sortedValues [(1 : ℚ)]).length : ℚ) ≠ 0) :=
  calculateStatistics_empty_null.2 [(1 : ℚ)] (by simp)

/-- C1: the `percentile` field is the percentage of all values of the
sequence that are `≤` the last value of the sequence in its original
(pre-sort) order, rounded to 2 decimal places; in particular it is
`75` on `[40, 10, 20, 30]` and `100` on `[10, 20, 30, 40]`. -/
theorem percentile_is_rank_of_last :
    (∀ (values : List ℚ) (h : values ≠ []),
      ∃ st, calculateStatistics values = some st ∧
        st.percentile =
          round2 (((values.countP (fun v => v ≤ values.getLast h) : ℚ)
            / (values.length : ℚ) * 100 : ℚ))) ∧
    (∃ st, calculateStatistics [(40 : ℚ), 10, 20, 30] = some st ∧ st.percentile = 75) ∧
    (∃ st, calculateStatistics [(10 : ℚ), 20, 30, 40] = some st ∧ st.percentile = 100) := by
  refine ⟨fun values h => ⟨statisticsOf values, calculateStatistics_eq_some h, ?_⟩, ?_, ?_⟩
  · show round2 ((listPercentile values : ℚ) : ℝ) = _
    rw [listPercentile_eq_countP values h]
  · refine ⟨statisticsOf [(40 : ℚ), 10, 20, 30], calculateStatistics_eq_some (by simp), ?_⟩
    show round2 ((listPercentile [(40 : ℚ), 10, 20, 30] : ℚ) : ℝ) = 75
    rw [show listPercentile [(40 : ℚ), 10, 20, 30] = 75 from by
      norm_num [listPercentile, sortedValues, lastValueOf, List.insertionSort,
        List.orderedInsert, List.getD_eq_getElem?_getD]]
    rw [round2_ratCast_eq 75 7500 (by norm_num) (by norm_num)]
    norm_num
  · refine ⟨statisticsOf [(10 : ℚ), 20, 30, 40], calculateStatistics_eq_some (by simp), ?_⟩
    show round2 ((listPercentile [(10 : ℚ), 20, 30, 40] : ℚ) : ℝ) = 100
    rw [show listPercentile [(10 : ℚ), 20, 30, 40] = 100 from by
      norm_num [listPercentile, sortedValues, lastValueOf, List.insertionSort,
        List.orderedInsert, List.getD_eq_getElem?_getD]]
    rw [round2_ratCast_eq 100 10000 (by norm_num) (by norm_num)]
    norm_num

theorem percentile_is_rank_of_last_witness :
    ∃ st, calculateStatistics [(40 : ℚ), 10, 20, 30] = some st ∧
      st.percentile =
        round2 ((([(40 : ℚ), 10, 20, 30].countP
            (fun v => v ≤ [(40 : ℚ), 10, 20, 30].getLast (by simp)) : ℚ)
          / (([(40 : ℚ), 10, 20, 30].length : ℚ)) * 100 : ℚ)) :=
  percentile_is_rank_of_last.1 [(40 : ℚ), 10, 20, 30] (by simp)

/-- C8: the `median` field is computed from the ascending sort of the
values: the average of the two central elements for an even count, the
exact central element for an odd count, rounded to 2 decimal places.
Stated against an arbitrary sorted permutation `s` of the input (which
is necessarily the ascending sort). -/
theorem median_of_sorted_values :
    ∀ (values s : List ℚ), values ≠ [] → List.Perm s values → s.Sorted (· ≤ ·) →
      ∃ st, calculateStatistics values = some st ∧
        st.median = round2 (((if s.length % 2 = 0 then
            (s.getD (s.length / 2 - 1) 0 + s.getD (s.length / 2) 0) / 2
          else s.getD (s.length / 2) 0) : ℚ)) := by
  intro values s h hperm hsort
  have hs : s = sortedValues values :=
    List.eq_of_perm_of_sorted (hperm.trans (sortedValues_perm values).symm) hsort
      (sortedValues_sorted values)
  refine ⟨statisticsOf values, calculateStatistics_eq_some h, ?_⟩
  rw [hs]
  rfl

theorem median_of_sorted_values_witness :
    ∃ st, calculateStatistics [(3 : ℚ), 1, 2] = some st ∧
      st.median = round2 (((if ([(1 : ℚ), 2, 3].length) % 2 = 0 then
          ([(1 : ℚ), 2, 3].getD (([(1 : ℚ), 2, 3].length) / 2 - 1) 0
            + [(1 : ℚ), 2, 3].getD (([(1 : ℚ), 2, 3].length) / 2) 0) / 2
        else [(1 : ℚ), 2, 3].getD (([(1 : ℚ), 2, 3].length) / 2) 0) : ℚ)) :=
  median_of_sorted_values [(3 : ℚ), 1, 2] [(1 : ℚ), 2, 3] (by simp) (by decide) (by decide)

/-- C9: the `std_dev` field is the population standard deviation — the
square root of the mean of squared deviations (division by `count`, not
`count - 1`) — rounded to 2 decimal places; on `[10, 20, 30, 40]` the
engine yields `mean = 25`, `std_dev = 11.18`, `min = 10`, `max = 40`,
`count = 4`. -/
theorem std_dev_is_population :
    (∀ values : List ℚ, values ≠ [] →
      ∃ st, calculateStatistics values = some st ∧
        st.std_dev = round2 (Real.sqrt
          (((values.map (fun v => (v - listMean values) ^ 2)).sum : ℚ)
            / (values.length : ℚ)))) ∧
    (∃ st, calculateStatistics [(10 : ℚ), 20, 30, 40] = some st ∧
      st.mean = 25 ∧ st.std_dev = 11.18 ∧ st.min = 10 ∧ st.max = 40 ∧ st.count = 4) := by
  constructor
  · intro values h
    refine ⟨statisticsOf values, calculateStatistics_eq_some h, ?_⟩
    show round2 (Real.sqrt ((listVariance values : ℚ) : ℝ)) = _
    rw [listVariance]
    push_cast
    ring_nf
  · refine ⟨statisticsOf [(10 : ℚ), 20, 30, 40], calculateStatistics_eq_some (by simp),
      ?_, ?_, ?_, ?_, rfl⟩
    · show round2 ((listMean [(10 : ℚ), 20, 30, 40] : ℚ) : ℝ) = 25
      rw [show listMean [(10 : ℚ), 20, 30, 40] = 25 from by norm_num [listMean],
        round2_ratCast_eq 25 2500 (by norm_num) (by norm_num)]
      norm_num
    · show round2 (Real.sqrt ((listVariance [(10 : ℚ), 20, 30, 40] : ℚ) : ℝ)) = 11.18
      rw [show listVariance [(10 : ℚ), 20, 30, 40] = 125 from by
        norm_num [listVariance, listMean]]
      rw [show ((125 : ℚ) : ℝ) = 125 from by norm_num]
      have hsq : Real.sqrt 125 ^ 2 = 125 := Real.sq_sqrt (by norm_num)
      have hnn : (0 : ℝ) ≤ Real.sqrt 125 := Real.sqrt_nonneg 125
      rw [round2_eq_of_bounds (Real.sqrt 125) 1118 (by nlinarith) (by nlinarith)]
      norm_num
    · show round2 ((listMin [(10 : ℚ), 20, 30, 40] : ℚ) : ℝ) = 10
      rw [show listMin [(10 : ℚ), 20, 30, 40] = 10 from by
        norm_num [listMin, min_def], round2_ratCast_eq 10 1000 (by norm_num) (by norm_num)]
      norm_num
    · show round2 ((listMax [(10 : ℚ), 20, 30, 40] : ℚ) : ℝ) = 40
      rw [show listMax [(10 : ℚ), 20, 30, 40] = 40 from by
        norm_num [listMax, max_def], round2_ratCast_eq 40 4000 (by norm_num) (by norm_num)]
      norm_num

theorem std_dev_is_population_witness :
    ∃ st, calculateStatistics [(2 : ℚ)] = some st ∧
      st.std_dev = round2 (Real.sqrt
        ((([(2 : ℚ)].map (fun v => (v - listMean [(2 : ℚ)]) ^ 2)).sum : ℚ)
          / (([(2 : ℚ)].length : ℚ))) ) :=
  std_dev_is_population.1 [(2 : ℚ)] (by simp)

/-- C10: every field of the summary except `count` is produced by the
single rounding `Math.round(x * 100) / 100` applied to its raw value, so
each such field times 100 is an integer; `count` is the raw length; the
deviation bands are `round2 (mean ± std_dev)` and
`round2 (mean ± 2 * std_dev)` (with the unrounded mean and standard
deviation). -/
theorem all_fields_rounded_to_2dp :
    ∀ values : List ℚ, values ≠ [] →
      ∃ st, calculateStatistics values = some st ∧
        st.mean = round2 (listMean values) ∧
        st.median = round2 (listMedian values) ∧
        st.std_dev = round2 (listStdDev values) ∧
        st.min = round2 (listMin values) ∧
        st.max = round2 (listMax values) ∧
        st.plus_one_dev = round2 ((listMean values : ℝ) + listStdDev values) ∧
        st.minus_one_dev = round2 ((listMean values : ℝ) - listStdDev values) ∧
        st.plus_two_dev = round2 ((listMean values : ℝ) + 2 * listStdDev values) ∧
        st.minus_two_dev = round2 ((listMean values : ℝ) - 2 * listStdDev values) ∧
        st.percentile = round2 (listPercentile values) ∧
        st.count = values.length ∧
        (∀ x ∈ [st.mean, st.median, st.std_dev, st.min, st.max, st.plus_one_dev,
          st.minus_one_dev, st.plus_two_dev, st.minus_two_dev, st.percentile],
          ∃ k : ℤ, x * 100 = (k : ℝ)) := by
  intro values h
  refine ⟨statisticsOf values, calculateStatistics_eq_some h, rfl, rfl, rfl, rfl, rfl,
    rfl, rfl, rfl, rfl, rfl, rfl, ?_⟩
  intro x hx
  simp only [List.mem_cons, List.not_mem_nil, or_false] at hx
  rcases hx with rfl | rfl | rfl | rfl | rfl | rfl | rfl | rfl | rfl | rfl <;>
    exact ⟨_, round2_mul_hundred _⟩

theorem all_fields_rounded_to_2dp_witness :
    ∃ st, calculateStatistics [(7 : ℚ)] = some st ∧
      st.mean = round2 (listMean [(7 : ℚ)]) ∧
      st.median = round2 (listMedian [(7 : ℚ)]) ∧
      st.std_dev = round2 (listStdDev [(7 : ℚ)]) ∧
      st.min = round2 (listMin [(7 : ℚ)]) ∧
      st.max = round2 (listMax [(7 : ℚ)]) ∧
      st.plus_one_dev = round2 ((listMean [(7 : ℚ)] : ℝ) + listStdDev [(7 : ℚ)]) ∧
      st.minus_one_dev = round2 ((listMean [(7 : ℚ)] : ℝ) - listStdDev [(7 : ℚ)]) ∧
      st.plus_two_dev = round2 ((listMean [(7 : ℚ)] : ℝ) + 2 * listStdDev [(7 : ℚ)]) ∧
      st.minus_two_dev = round2 ((listMean [(7 : ℚ)] : ℝ) - 2 * listStdDev [(7 : ℚ)]) ∧
      st.percentile = round2 (listPercentile [(7 : ℚ)]) ∧
      st.count = [(7 : ℚ)].length ∧
      (∀ x ∈ [st.mean, st.median, st.std_dev, st.min, st.max, st.plus_one_dev,
        st.minus_one_dev, st.plus_two_dev, st.minus_two_dev, st.percentile],
        ∃ k : ℤ, x * 100 = (k : ℝ)) :=
  all_fields_rounded_to_2dp [(7 : ℚ)] (by simp)

/-! ## Claims about the Window Selector -/

/-- C2 counterexample: with the `ALL` window the selector sorts the
input array **in place** (`data.sort(...)`), so an out-of-order series
is reordered by the call — the loaded entity is mutated. -/
theorem selector_mutates_input_series :
    filterByTimeFrameEffect [⟨1, 0⟩, ⟨0, 0⟩] (some "ALL") 0 ≠ [⟨1, 0⟩, ⟨0, 0⟩] := by
  decide

/-- C2 amended: the selector never adds, removes or modifies a record of
the input series — after the call the series holds the same records (a
permutation) — but the `ALL`/absent branch may reorder it in place; for
any other window the input is left exactly as it was. -/
theorem selector_effect_is_permutation :
    ∀ (data : List DatedRecord) (t : Option String) (now : Int),
      List.Perm (filterByTimeFrameEffect data t now) data ∧
      (isAllLike t = false → filterByTimeFrameEffect data t now = data) := by
  intro data t now
  unfold filterByTimeFrameEffect
  cases ht : isAllLike t
  · simp [List.Perm.refl]
  · simp [sortByDate_perm data]

theorem selector_effect_is_permutation_witness :
    List.Perm (filterByTimeFrameEffect [⟨1, 0⟩] (some "1W") 0) [⟨1, 0⟩] ∧
    (isAllLike (some "1W") = false →
      filterByTimeFrameEffect [⟨1, 0⟩] (some "1W") 0 = [⟨1, 0⟩]) :=
  selector_effect_is_permutation [⟨1, 0⟩] (some "1W") 0

/-- C3 counterexample: for an unrecognized token (here `9Z`) the
selector returns the input list as-is, **without sorting**, so an
out-of-order series yields an output that is not sorted by date. -/
theorem unrecognized_token_output_unsorted :
    filterByTimeFrame [⟨1, 0⟩, ⟨0, 0⟩] (some "9Z") 0 = [⟨1, 0⟩, ⟨0, 0⟩] ∧
    ¬ (filterByTimeFrame [⟨1, 0⟩, ⟨0, 0⟩] (some "9Z") 0).Sorted byDate := by
  constructor
  · decide
  · decide

/-- C3 amended: the selector output is sorted ascending by date for the
`ALL`/absent/empty window and for every recognized token; only the
unrecognized-token fallback returns the series in its original insertion
order. -/
theorem selector_output_sorted :
    ∀ (data : List DatedRecord) (t : Option String) (now : Int),
      isAllLike t = true ∨ (getTimeFrameDate t now).isSome = true →
      (filterByTimeFrame data t now).Sorted byDate := by
  intro data t now h
  rcases h with h | h
  · rw [filterByTimeFrame, if_pos h]
    exact sortByDate_sorted data
  · cases hall : isAllLike t
    · obtain ⟨s, hs⟩ := Option.isSome_iff_exists.mp h
      rw [filterByTimeFrame, if_neg (by simp [hall]), hs]
      exact sortByDate_sorted _
    · rw [filterByTimeFrame, if_pos hall]
      exact sortByDate_sorted data

theorem selector_output_sorted_witness :
    (filterByTimeFrame [⟨1, 0⟩, ⟨0, 0⟩] (some "ALL") 0).Sorted byDate :=
  selector_output_sorted [⟨1, 0⟩, ⟨0, 0⟩] (some "ALL") 0 (Or.inl (by decide))

/-- C4 counterexample: the selector never applies an upper bound at
`now`: with `now = day 0` and token `1W` (resolved start `-7`), a record
dated day `100` — strictly after `now` — is still returned. -/
theorem selector_returns_record_after_now :
    getTimeFrameDate (some "1W") 0 = some (-7) ∧
    filterByTimeFrame [⟨100, 0⟩] (some "1W") 0 = [⟨100, 0⟩] ∧
    ¬ ((100 : Int) ≤ 0) := by
  refine ⟨by decide, by decide, by decide⟩

/-- C4 amended: for a recognized non-`ALL` token resolving to start
instant `s`, the output is exactly the records of the series with
`s ≤ date` (as a permutation of the corresponding filter): every
returned record has `date ≥ s`, and every record with `date ≥ s` is
returned — but no upper bound `date ≤ now` is enforced. -/
theorem selector_is_lower_bound_filter :
    ∀ (data : List DatedRecord) (t : Option String) (now s : Int),
      isAllLike t = false → getTimeFrameDate t now = some s →
      List.Perm (filterByTimeFrame data t now)
        (data.filter (fun r => s ≤ r.date)) ∧
      (∀ r ∈ filterByTimeFrame data t now, s ≤ r.date) ∧
      (∀ r ∈ data, s ≤ r.date → r ∈ filterByTimeFrame data t now) := by
  intro data t now s h1 h2
  have he : filterByTimeFrame data t now =
      sortByDate (data.filter (fun r => s ≤ r.date)) := by
    rw [filterByTimeFrame, if_neg (by simp [h1]), h2]
  refine ⟨he ▸ sortByDate_perm _, ?_, ?_⟩
  · intro r hr
    rw [he] at hr
    have hm : r ∈ data.filter (fun r => s ≤ r.date) :=
      (sortByDate_perm _).mem_iff.mp hr
    simpa using (List.mem_filter.mp hm).2
  · intro r hr hle
    rw [he]
    exact (sortByDate_perm _).mem_iff.mpr (List.mem_filter.mpr ⟨hr, by simpa using hle⟩)

theorem selector_is_lower_bound_filter_witness :
    List.Perm (filterByTimeFrame [⟨0, 0⟩] (some "1W") 0)
      ([(⟨0, 0⟩ : DatedRecord)].filter (fun r => (-7 : Int) ≤ r.date)) :=
  (selector_is_lower_bound_filter [⟨0, 0⟩] (some "1W") 0 (-7) (by decide) (by decide)).1

/-- C6 counterexample: an unrecognized token does *not* produce the same
result as `ALL`: `ALL` sorts the series, whereas the unrecognized-token
fallback returns it in insertion order. -/
theorem unrecognized_token_differs_from_all :
    filterByTimeFrame [⟨1, 0⟩, ⟨0, 0⟩] (some "9Z") 0 ≠
      filterByTimeFrame [⟨1, 0⟩, ⟨0, 0⟩] (some "ALL") 0 := by
  decide

/-- C6 amended: an unrecognized relative token (not caught by
validation) degrades to "no lower bound": the selector returns the
entire series — no record excluded, no error — as a permutation of the
`ALL` result, but unsorted (in original insertion order) rather than
date-sorted as `ALL` would produce. -/
theorem unrecognized_token_returns_whole_series :
    ∀ (data : List DatedRecord) (t : Option String) (now : Int),
      isAllLike t = false → getTimeFrameDate t now = none →
      filterByTimeFrame data t now = data ∧
      List.Perm (filterByTimeFrame data t now)
        (filterByTimeFrame data (some "ALL") now) := by
  intro data t now h1 h2
  have he : filterByTimeFrame data t now = data := by
    rw [filterByTimeFrame, if_neg (by simp [h1]), h2]
  have hall : filterByTimeFrame data (some "ALL") now = sortByDate data := by
    rw [filterByTimeFrame, if_pos (by decide)]
  exact ⟨he, by rw [he, hall]; exact (sortByDate_perm data).symm⟩

theorem unrecognized_token_returns_whole_series_witness :
    filterByTimeFrame [⟨1, 0⟩] (some "9Z") 0 = [⟨1, 0⟩] :=
  (unrecognized_token_returns_whole_series [⟨1, 0⟩] (some "9Z") 0
    (by decide) (by decide)).1

/-! ## Claim about relative-timeframe resolution (`1M`) -/

/-- `daysFromCivil` is affine in the day argument: day `d` of a month is
`d - 1` days after day `1` of that month. -/
theorem daysFromCivil_day_shift (y m d : Int) :
    daysFromCivil y m d = daysFromCivil y m 1 + (d - 1) := by
  simp only [daysFromCivil]
  ring

/-- Decrementing the 0-based month field by one, as `new Date(y, m - 2, d)`
does for a 1-based month `m`, addresses day `d` counted inside the
previous calendar month (December of the previous year when `m = 1`). -/
theorem jsMakeDay_prev_month (y m d : Int) (h1 : 1 ≤ m) (h2 : m ≤ 12) :
    jsMakeDay y (m - 2) d =
      daysFromCivil (if m = 1 then y - 1 else y) (if m = 1 then 12 else m - 1) d := by
  simp only [jsMakeDay]
  rw [Int.fdiv_eq_ediv _ (by norm_num), Int.fmod_eq_emod _ (by norm_num)]
  have hq : (y * 12 + (m - 2)) / 12 = if m = 1 then y - 1 else y := by
    split
    · omega
    · omega
  have hr : (y * 12 + (m - 2)) % 12 + 1 = if m = 1 then 12 else m - 1 := by
    split
    · omega
    · omega
  rw [hq, hr]
  split
  · rw [daysFromCivil_day_shift (y - 1) 12 d]
  · rw [daysFromCivil_day_shift y (m - 1) d]

/-- C5 amended: for any current moment `now` decoding to the civil date
`(y, m, d)`, the `1M` token resolves to `new Date(y, m0 - 1, d)` (with
`m0` the 0-based month), i.e. to day `d` counted within the previous
calendar month; whenever `d` does not exceed that month's length this is
the previous-month date with the same day-of-month, lying between the
first and last day of the previous month.  (When `d` exceeds it, the
constructor rolls past the end of the previous month — see the
counterexample — which is still calendar-field arithmetic, not
"now minus 30 days".) -/
theorem oneMonth_resolves_to_prev_month :
    ∀ now y m d : Int, civilFromDays now = (y, m, d) →
      1 ≤ m → m ≤ 12 → 1 ≤ d →
      d ≤ daysInMonth (if m = 1 then y - 1 else y) (if m = 1 then 12 else m - 1) →
      getTimeFrameDate (some "1M") now =
        some (daysFromCivil (if m = 1 then y - 1 else y) (if m = 1 then 12 else m - 1) d) ∧
      daysFromCivil (if m = 1 then y - 1 else y) (if m = 1 then 12 else m - 1) 1 ≤
        daysFromCivil (if m = 1 then y - 1 else y) (if m = 1 then 12 else m - 1) d ∧
      daysFromCivil (if m = 1 then y - 1 else y) (if m = 1 then 12 else m - 1) d ≤
        daysFromCivil (if m = 1 then y - 1 else y) (if m = 1 then 12 else m - 1)
          (daysInMonth (if m = 1 then y - 1 else y) (if m = 1 then 12 else m - 1)) := by
  intro now y m d hc hm1 hm2 hd1 hd2
  have hy : getFullYear now = y := by rw [getFullYear, hc]
  have hmo : getMonth now = m - 1 := by rw [getMonth, hc]
  have hdd : getDate now = d := by rw [getDate, hc]
  refine ⟨?_, ?_, ?_⟩
  · have hstep : getTimeFrameDate (some "1M") now =
        some (jsMakeDay (getFullYear now) (getMonth now - 1) (getDate now)) := rfl
    rw [hstep, hy, hmo, hdd, show m - 1 - 1 = m - 2 from by ring,
      jsMakeDay_prev_month y m d hm1 hm2]
  · rw [daysFromCivil_day_shift _ _ d]
    omega
  · rw [daysFromCivil_day_shift _ _ d, daysFromCivil_day_shift _ _
      (daysInMonth (if m = 1 then y - 1 else y) (if m = 1 then 12 else m - 1))]
    omega

theorem oneMonth_resolves_to_prev_month_witness :
    getTimeFrameDate (some "1M") (daysFromCivil 2025 2 15) =
      some (daysFromCivil (if (2 : Int) = 1 then 2025 - 1 else 2025)
        (if (2 : Int) = 1 then 12 else 2 - 1) 15) :=
  (oneMonth_resolves_to_prev_month (daysFromCivil 2025 2 15) 2025 2 15
    (by decide) (by decide) (by decide) (by decide) (by decide)).1

/-- C5 counterexample: with "now" fixed at 2025-03-31 (the 31st of a
month whose predecessor has only 28 days), the `1M` token resolves to
2025-03-**03** — the JavaScript `Date` constructor rolls the
non-existent February 31st over into March — which is *not* a valid
date in the prior month (it lies after 2025-02-28, the last day of
February 2025), though indeed also not "now minus 30 days". -/
theorem oneMonth_counterexample_2025_03_31 :
    getTimeFrameDate (some "1M") (daysFromCivil 2025 3 31) =
      some (daysFromCivil 2025 3 3) ∧
    civilFromDays (daysFromCivil 2025 3 31) = (2025, 3, 31) ∧
    civilFromDays (daysFromCivil 2025 3 3) = (2025, 3, 3) ∧
    daysInMonth 2025 2 = 28 ∧
    daysFromCivil 2025 2 28 < daysFromCivil 2025 3 3 ∧
    daysFromCivil 2025 3 3 ≠ daysFromCivil 2025 3 31 - 30 := by
  refine ⟨by decide, by decide, by decide, by decide, by decide, by decide⟩
